import Mathlib

/-!
Shallow embedding of the core of `bedrock-vc-status` (status list credential
store, mapping store and status-update orchestration), translated from
`lib/slcs.js`, `lib/mappings.js`, the status-update module, `lib/issue.js`,
`lib/constants.js` and `schemas/bedrock-vc-status.js`.

Modelling conventions:
* MongoDB `updateOne(filter, {$set, $setOnInsert}, {upsert: true})` against a
  collection with a unique natural-key index is translated exactly: a matched
  filter applies `$set`; an unmatched filter attempts an insert built from the
  filter equalities plus `$set`/`$setOnInsert`, which raises a duplicate-key
  error when a record with the same natural key already exists.  The driver
  result check (`result.result.n > 0` respectively
  `modifiedCount > 0 || upsertedCount > 0`) is translated as "a document was
  modified or upserted".
* JavaScript exceptions are `Except.error`; effectful operations return the
  (persistent) database state alongside the outcome, because a thrown error
  does not roll back previously committed writes.
* The bitstring codec is external; `encodedList` is carried in decoded form
  (`List Bool`), with `decode`/`encode` the identity round-trip and
  `getStatus`/`setStatus` reading and writing one bit.
* The external Issuer re-signs a document: it updates only the validity
  window and the proof, per its contract and `lib/issue.js`.
* Timestamps are milliseconds as `Nat`.
-/

/-- A Bedrock-style error: message plus error name
(`DataError`, `NotSupportedError`, `InvalidStateError`, `NotFoundError`). -/
structure BError where
  message : String
  name : String
deriving DecidableEq

/-- JavaScript values as they occur in `Map` lookups in this code base:
strings (the map keys), arrays (a credential's `type` field) and
`undefined` (a missed lookup). -/
inductive JsVal where
  | str : String → JsVal
  | arr : List String → JsVal
  | undefinedVal : JsVal
deriving DecidableEq

/-- JavaScript `Map` key comparison (SameValueZero, which coincides with
`===` on the values used here): strings compare by their characters; an
array is an object compared by reference, and the array supplied at a call
site is never the same object as a stored key (the keys of
`LIST_TYPE_TO_ENTRY_TYPE` are strings in any case), so an array argument
matches nothing; `undefined` equals only `undefined`. -/
def jsSameValueZero : JsVal → JsVal → Bool
  | .str a, .str b => a == b
  | .undefinedVal, .undefinedVal => true
  | _, _ => false

/-- `LIST_TYPE_TO_ENTRY_TYPE` from `lib/constants.js`: status list type →
status entry type. -/
def LIST_TYPE_TO_ENTRY_TYPE : List (JsVal × String) :=
  [(.str "BitstringStatusList", "BitstringStatusListEntry"),
   (.str "StatusList2021", "StatusList2021Entry")]

/-- JavaScript `Map.prototype.has`. -/
def jsMapHas (m : List (JsVal × String)) (k : JsVal) : Bool :=
  m.any (fun p => jsSameValueZero p.1 k)

/-- JavaScript `Map.prototype.get` (`undefined` on a miss). -/
def jsMapGet (m : List (JsVal × String)) (k : JsVal) : JsVal :=
  match m.find? (fun p => jsSameValueZero p.1 k) with
  | some p => .str p.2
  | none => .undefinedVal

/-- `MAX_LIST_SIZE` from `lib/constants.js`: 2^26 bits. -/
def MAX_LIST_SIZE : Nat := 67108864

/-- One day in milliseconds (the validity period used by `lib/issue.js`). -/
def DAY_MS : Nat := 86400000

/-- A (status list) verifiable credential document, with the fields this
code base reads or writes.  `encodedList` is the embedded bitstring in
decoded form (the codec is an external round-tripping collaborator). -/
structure Credential where
  id : String
  type : List String
  statusPurpose : String
  encodedList : List Bool
  name : String := ""
  description : String := ""
  issuanceDate : Option Nat := none
  expirationDate : Option Nat := none
  validUntil : Option Nat := none
  proof : Option Nat := none
deriving DecidableEq

/-- The external Issuer (`issue` in `lib/issue.js`, consumed per its
contract): refreshes the validity window (`issuanceDate` = now,
`expirationDate` = now + one day), deletes the old proof and signs the
document; every other field of the submitted document is untouched. -/
def issue (now : Nat) (credential : Credential) : Credential :=
  { credential with
    issuanceDate := some now
    expirationDate := some (now + DAY_MS)
    proof := some now }

/-- Record metadata (`meta`): creation/update timestamps and the OCC
sequence number.  Stored records always carry a numeric sequence. -/
structure RecMeta where
  created : Nat
  updated : Nat
  sequence : Nat
deriving DecidableEq

/-- A stored status list credential record (collection `vc-status-slc`,
unique index on `statusListId`). -/
structure SlcRecord where
  statusListId : String
  indexAllocator : String
  credential : Credential
  meta : RecMeta
deriving DecidableEq

/-- The composite natural key of a mapping record (collection
`vc-status-vcToSlc`, unique index on the triple). -/
structure MappingKey where
  configId : String
  credentialId : String
  statusPurpose : String
deriving DecidableEq

/-- A stored credential→list-position mapping record. -/
structure MappingRecord where
  key : MappingKey
  statusListCredential : String
  statusListIndex : String
  meta : RecMeta
deriving DecidableEq

/-- Whole persistent/process state: the two collections, the in-process
SLC cache, and an instrumentation counter of Issuer invocations. -/
structure St where
  slcs : List SlcRecord
  maps : List MappingRecord
  cache : List (String × SlcRecord)
  issues : Nat
deriving DecidableEq

/-- `findOne({statusListId})` under the unique index. -/
def slcLookup (st : List SlcRecord) (k : String) : Option SlcRecord :=
  st.find? (fun r => decide (r.statusListId = k))

/-- Apply an update to the (unique) record with the given status list ID. -/
def slcReplace (st : List SlcRecord) (k : String) (f : SlcRecord → SlcRecord) :
    List SlcRecord :=
  st.map (fun r => if r.statusListId = k then f r else r)

/-- `findOne` on the mapping collection under its unique triple index. -/
def mapLookup (st : List MappingRecord) (k : MappingKey) : Option MappingRecord :=
  st.find? (fun r => decide (r.key = k))

/-- Apply an update to the (unique) mapping record with the given key. -/
def mapReplace (st : List MappingRecord) (k : MappingKey)
    (f : MappingRecord → MappingRecord) : List MappingRecord :=
  st.map (fun r => if r.key = k then f r else r)

/-- LRU cache lookup by status list ID. -/
def cacheLookup (c : List (String × SlcRecord)) (k : String) : Option SlcRecord :=
  (c.find? (fun p => decide (p.1 = k))).map Prod.snd

/-- `SLC_CACHE.delete(statusListId)`. -/
def cacheDelete (c : List (String × SlcRecord)) (k : String) :
    List (String × SlcRecord) :=
  c.filter (fun p => decide (p.1 ≠ k))

/-- JavaScript `s.slice(n)`: the characters of `s` from position `n` on
(empty when `n` is past the end). -/
def jsSlice (s : String) (n : Nat) : String :=
  { data := s.data.drop n }

/-- JavaScript `s.endsWith(p)`. -/
def jsEndsWith (s p : String) : Bool :=
  p.data.isSuffixOf s.data

/-- Whether `p` occurs in `s` at character position `i`. -/
def occursAt (s p : String) (i : Nat) : Bool :=
  p.data.isPrefixOf (s.data.drop i)

namespace Slcs

/-- The `InvalidStateError` thrown by `slcs.set` when the OCC write did not
apply. -/
def staleSlcError : BError :=
  { message := "Could not update status list credential. Sequence is stale."
    name := "InvalidStateError" }

/-- The `NotFoundError` thrown by `_getUncachedRecord`. -/
def slcNotFoundError : BError :=
  { message := "Status list credential not found."
    name := "NotFoundError" }

/-- The `DataError` thrown by `create` when `credentialId` does not end in
the status list suffix; its message names the expected suffix. -/
def suffixMismatchError (suffix : String) : BError :=
  { message := "Credential ID must end in status list suffix (\"" ++
      suffix ++ "\")."
    name := "DataError" }

/-- `slcs.set` (`lib/slcs.js`): OCC write via
`updateOne({statusListId, 'meta.sequence': sequence === 0 ? null : sequence - 1},
{$set: {credential, 'meta.updated': now, 'meta.sequence': sequence},
 $setOnInsert: {statusListId, indexAllocator, 'meta.created': now}},
{upsert: true})`.
A stored record always has a numeric `meta.sequence`, so the `null` filter
value matches no existing record.  When the filter matches, `$set` applies
and the cache entry is cleared.  When it does not match and a record with
this `statusListId` exists, the attempted upsert-insert violates the unique
index, the duplicate error is swallowed and the stale-sequence
`InvalidStateError` is thrown.  When no record exists at all, the
upsert-insert succeeds at the given sequence (whatever it is) and the cache
entry is cleared. -/
def set (now : Nat) (statusListId indexAllocator : String)
    (credential : Credential) (sequence : Nat) (σ : St) :
    Except BError Unit × St :=
  match slcLookup σ.slcs statusListId with
  | some r =>
    if sequence ≠ 0 ∧ r.meta.sequence = sequence - 1 then
      (.ok (),
        { σ with
          slcs := slcReplace σ.slcs statusListId (fun x =>
            { x with
              credential := credential
              meta := { x.meta with updated := now, sequence := sequence } })
          cache := cacheDelete σ.cache statusListId })
    else
      (.error staleSlcError, σ)
  | none =>
    (.ok (),
      { σ with
        slcs := { statusListId := statusListId
                  indexAllocator := indexAllocator
                  credential := credential
                  meta := { created := now, updated := now
                            sequence := sequence } } :: σ.slcs
        cache := cacheDelete σ.cache statusListId })

/-- `slcs.get` (`lib/slcs.js`): cache-aware read; `useCache = false` always
hits the durable store; a cached read memoizes the loaded record; a missing
record is a `NotFoundError`. -/
def get (useCache : Bool) (statusListId : String) (σ : St) :
    Except BError SlcRecord × St :=
  if useCache then
    match cacheLookup σ.cache statusListId with
    | some r => (.ok r, σ)
    | none =>
      match slcLookup σ.slcs statusListId with
      | some r => (.ok r, { σ with cache := (statusListId, r) :: σ.cache })
      | none => (.error slcNotFoundError, σ)
  else
    match slcLookup σ.slcs statusListId with
    | some r => (.ok r, σ)
    | none => (.error slcNotFoundError, σ)

/-- The object `refresh` resolves to: `{credential}`. -/
structure RefreshResult where
  credential : Credential
deriving DecidableEq

/-- JavaScript property access `doc.content` on the object returned by
`refresh`: `refresh` returns `{credential}`, which has no `content`
property, so the access yields `undefined`. -/
def RefreshResult.content (_ : RefreshResult) : Option Credential := none

/-- The object `getFresh` resolves to: `{credential}`, where the credential
can be `undefined` (see `RefreshResult.content`). -/
structure GetFreshResult where
  credential : Option Credential
deriving DecidableEq

/-- `slcs.refresh` (`lib/slcs.js`): read uncached, re-issue the unchanged
document through the Issuer, OCC-write it at `sequence + 1`.  A
`Conflict` (`InvalidStateError`) from the write is not retried: the cache
entry is cleared and the now-current record is re-read (cached get) and its
credential returned; any other error propagates.
`mid` models the writes other tasks commit between this task's read and its
OCC write (the suspension points at the Issuer call and the store write);
`mid = id` is an interference-free run. -/
def refresh (now : Nat) (mid : List SlcRecord → List SlcRecord)
    (statusListId : String) (σ : St) : Except BError RefreshResult × St :=
  match get false statusListId σ with
  | (.error e, σ₀) => (.error e, σ₀)
  | (.ok record, σ₀) =>
    -- reissue SLC (external Issuer), with concurrent writes `mid` landing
    -- before this task's own OCC write
    let credential := issue now record.credential
    let σ₁ : St := { σ₀ with slcs := mid σ₀.slcs, issues := σ₀.issues + 1 }
    match set now statusListId record.indexAllocator credential
        (record.meta.sequence + 1) σ₁ with
    | (.ok _, σ₂) => (.ok { credential := credential }, σ₂)
    | (.error e, σ₂) =>
      if e.name = "InvalidStateError" then
        -- ignore conflict; SLC was concurrently updated: clear cache and
        -- re-read (cached get), returning the now-current credential
        let σ₃ := { σ₂ with cache := cacheDelete σ₂.cache statusListId }
        match get true statusListId σ₃ with
        | (.ok r, σ₄) => (.ok { credential := r.credential }, σ₄)
        | (.error e₂, σ₄) => (.error e₂, σ₄)
      else (.error e, σ₂)

/-- JavaScript `a || b` on the two optional validity-end fields (a present
date string is truthy). -/
def jsOrDate (a b : Option Nat) : Option Nat :=
  match a with
  | some v => some v
  | none => b

/-- `slcs.getFresh` (`lib/slcs.js`): cached read; compare
`now + 1000 * 60` against `new Date(credential.validUntil ||
credential.expirationDate)` (a missing value yields an invalid date, whose
comparison is false); when still valid return the stored credential,
otherwise refresh and return `{credential: doc.content}` where `doc` is the
object `refresh` resolved to. -/
def getFresh (now : Nat) (mid : List SlcRecord → List SlcRecord)
    (statusListId : String) (σ : St) : Except BError GetFreshResult × St :=
  match get true statusListId σ with
  | (.error e, σ₀) => (.error e, σ₀)
  | (.ok record, σ₀) =>
    let nowSkewed := now + 1000 * 60
    let validUntil :=
      jsOrDate record.credential.validUntil record.credential.expirationDate
    if (match validUntil with
        | some v => decide (nowSkewed ≤ v)
        | none => false) = true then
      -- SLC not expired
      (.ok { credential := some record.credential }, σ₀)
    else
      -- refresh SLC
      match refresh now mid statusListId σ₀ with
      | (.ok doc, σ₁) => (.ok { credential := doc.content }, σ₁)
      | (.error e, σ₁) => (.error e, σ₁)

/-- The unsigned status list credential built by the external constructors
(`createCredential` of `@digitalbazaar/vc-bitstring-status-list` for
`BitstringStatusList`, of `@digitalbazaar/vc-status-list` for
`StatusList2021`). -/
def createListCredential (listType : String) (id : String) (list : List Bool)
    (statusPurpose : String) : Credential :=
  { id := id
    type := ["VerifiableCredential",
             if listType = "BitstringStatusList" then
               "BitstringStatusListCredential"
             else
               "StatusList2021Credential"]
    statusPurpose := statusPurpose
    encodedList := list }

/-- The result object of `slcs.create`. -/
structure CreateResult where
  statusListId : String
  indexAllocator : String
  credential : Credential
deriving DecidableEq

/-- `slcs.create` (`lib/slcs.js`): reject an unsupported type
(`NotSupportedError`); require `credentialId` to end in the suffix of
`statusListId` after the instance base `config.id` (`DataError` naming the
suffix); build an all-false list of `length` bits via the external
constructor (no bound on `length` is checked here), decorate, issue, and
OCC-insert at sequence 0. -/
def create (now : Nat) (configId : String)
    (statusListId indexAllocator credentialId listType statusPurpose : String)
    (length : Nat) (σ : St) : Except BError CreateResult × St :=
  if ¬ jsMapHas LIST_TYPE_TO_ENTRY_TYPE (.str listType) then
    (.error { message := "Status list type \"" ++ listType ++
                "\" is not supported by this status instance."
              name := "NotSupportedError" }, σ)
  else
    -- ensure `statusListId` suffix matches `credentialId` suffix
    let suffix := jsSlice statusListId configId.length
    if ¬ jsEndsWith credentialId suffix then
      (.error (suffixMismatchError suffix), σ)
    else
      let list := List.replicate length false
      let credential0 := createListCredential listType credentialId list
        statusPurpose
      let credential1 :=
        { credential0 with
          name := "Status List Credential"
          description := "This credential expresses status information " ++
            "for some other credentials in an encoded and compressed list." }
      let credential := issue now credential1
      let σ₁ := { σ with issues := σ.issues + 1 }
      match set now statusListId indexAllocator credential 0 σ₁ with
      | (.ok _, σ₂) =>
        (.ok { statusListId := statusListId
               indexAllocator := indexAllocator
               credential := credential }, σ₂)
      | (.error e, σ₂) => (.error e, σ₂)

end Slcs

namespace Mappings

/-- The `InvalidStateError` thrown by `mappings.set` when the OCC write did
not apply. -/
def staleMappingError : BError :=
  { message :=
      "Could not update status list credential mapping. Sequence is stale."
    name := "InvalidStateError" }

/-- The `NotFoundError` thrown by `mappings.get`. -/
def mappingNotFoundError : BError :=
  { message := "Status list credential mapping not found."
    name := "NotFoundError" }

/-- `mappings.get` (`lib/mappings.js`): `findOne` on the composite key;
`NotFoundError` when absent.  Reads do not change state. -/
def get (key : MappingKey) (σ : St) : Except BError MappingRecord :=
  match mapLookup σ.maps key with
  | some r => .ok r
  | none => .error mappingNotFoundError

/-- `mappings.set` (`lib/mappings.js`): OCC write of the same shape as
`Slcs.set`, keyed by `(configId, credentialId, statusPurpose)` with a
unique index on that triple; an unmatched filter with an existing record
raises the duplicate-key error, surfaced as the stale-sequence
`InvalidStateError`; with no existing record the upsert inserts at the
given sequence. -/
def set (now : Nat) (key : MappingKey)
    (statusListCredential statusListIndex : String) (sequence : Nat)
    (σ : St) : Except BError Unit × St :=
  match mapLookup σ.maps key with
  | some r =>
    if sequence ≠ 0 ∧ r.meta.sequence = sequence - 1 then
      (.ok (),
        { σ with
          maps := mapReplace σ.maps key (fun m =>
            { m with
              statusListCredential := statusListCredential
              statusListIndex := statusListIndex
              meta := { m.meta with updated := now, sequence := sequence } }) })
    else
      (.error staleMappingError, σ)
  | none =>
    (.ok (),
      { σ with
        maps := { key := key
                  statusListCredential := statusListCredential
                  statusListIndex := statusListIndex
                  meta := { created := now, updated := now
                            sequence := sequence } } :: σ.maps })

end Mappings

namespace Status

/-- The `credentialStatus` object supplied to `setStatus`
(per `updateCredentialStatusBody`, `type` and `statusPurpose` are required
strings; the other two fields are optional strings). -/
structure CredentialStatus where
  type : String
  statusPurpose : String
  statusListCredential : Option String := none
  statusListIndex : Option String := none
deriving DecidableEq

/-- `bedrock.config['vc-status'].routes.statusLists` (`lib/config.js`). -/
def routesStatusLists : String := "/status-lists"

/-- `_assertStatusListMatch`: computes
`LIST_TYPE_TO_ENTRY_TYPE.get(slc.type)` — the map is keyed by the list-type
strings while `slc.type` is the credential's `type` array, so the lookup
yields `undefined` — and throws the `DataError` when the looked-up value
`===` `credentialStatus.type` (the comparison in the source is `===`, so
the error fires on equality and a different value passes). -/
def assertStatusListMatch (slc : Credential)
    (credentialStatus : CredentialStatus) : Except BError Unit :=
  let expectedType := jsMapGet LIST_TYPE_TO_ENTRY_TYPE (.arr slc.type)
  if jsSameValueZero expectedType (.str credentialStatus.type) then
    .error { message := "\"credentialStatus.type\" (" ++
               credentialStatus.type ++ ") does not match the expected value."
             name := "DataError" }
  else
    .ok ()

/-- JavaScript `s.lastIndexOf(pat)`: the greatest index at which `pat`
occurs in `s` (`none` for `-1`). -/
def lastIndexOfStr (s pat : String) : Option Nat :=
  ((List.range (s.length + 1)).filter (occursAt s pat)).getLast?

/-- `_computeStatusListId`: find the last occurrence of
`"/status-lists/"` in `statusListCredential` (`DataError` when absent) and
graft the tail from there onto `configId`. -/
def computeStatusListId (configId statusListCredential : String) :
    Except BError String :=
  let expected := routesStatusLists ++ "/"
  match lastIndexOfStr statusListCredential expected with
  | none =>
    .error { message := "Status list credential ID does not include " ++
               "expected path (\"" ++ expected ++ "\")."
             name := "DataError" }
  | some idx => .ok (configId ++ jsSlice statusListCredential idx)

/-- JavaScript `parseInt(s, 10)`: the longest leading run of decimal
digits; `none` models `NaN`. -/
def parseInt10 (s : String) : Option Nat :=
  let digits := s.data.takeWhile (fun c => c.isDigit)
  if digits.isEmpty then none
  else some (digits.foldl (fun n c => n * 10 + (c.toNat - 48)) 0)

/-- `list.getStatus(index)` of the external codec: read one bit (an
out-of-range or `NaN` index reads no set bit). -/
def getStatusBit (l : List Bool) (i : Option Nat) : Bool :=
  match i with
  | some n => l.getD n false
  | none => false

/-- `list.setStatus(index, status)` of the external codec: write one bit
(an out-of-range or `NaN` index writes nothing). -/
def setStatusBit (l : List Bool) (i : Option Nat) (b : Bool) : List Bool :=
  match i with
  | some n => l.set n b
  | none => l

/-- The `while(true)` update loop of `setStatus`: decode the stored list;
when the bit already equals the requested status return with no write and
no reissue; otherwise set the bit, re-issue through the Issuer, and
OCC-write at `record.meta.sequence + 1`; an `InvalidStateError` from the
write is swallowed, the record re-read uncached, and the loop repeats; any
other error propagates.  `fuel` bounds the modeled retries (the source loop
is unbounded; its termination relies on eventually-quiescent contention). -/
def setStatusLoop (now : Nat) (statusListId : String)
    (bitstringIndex : Option Nat) (status : Bool) :
    Nat → SlcRecord → St → Except BError Unit × St
  | 0, _, σ => (.error { message := "retry fuel exhausted", name := "Fuel" }, σ)
  | fuel + 1, record, σ =>
    let slc := record.credential
    -- decodeList / decodeList2021: the external codec round-trips
    let list := slc.encodedList
    if getStatusBit list bitstringIndex = status then
      -- `credential` status is already set: done
      (.ok (), σ)
    else
      let list1 := setStatusBit list bitstringIndex status
      let slc1 := { slc with encodedList := list1 }
      -- reissue SLC
      let issued := issue now slc1
      let σ₁ := { σ with issues := σ.issues + 1 }
      match Slcs.set now statusListId record.indexAllocator issued
          (record.meta.sequence + 1) σ₁ with
      | (.ok _, σ₂) => (.ok (), σ₂)
      | (.error e, σ₂) =>
        if e.name = "InvalidStateError" then
          -- ignore conflict, read and try again
          match Slcs.get false statusListId σ₂ with
          | (.ok record1, σ₃) =>
            setStatusLoop now statusListId bitstringIndex status fuel record1 σ₃
          | (.error e₂, σ₃) => (.error e₂, σ₃)
        else (.error e, σ₂)

/-- `setStatus` (status-update orchestrator): look up the mapping (a
`NotFoundError` is an allowed miss); require `statusListCredential` and
`statusListIndex` when no mapping exists; when one exists, supplied values
must match it and the stored values are then used; compute the status list
ID; load the SLC record uncached; run `_assertStatusListMatch`; check a
supplied `indexAllocator` against the record; when no mapping existed,
create one now at sequence 0 — the source wraps this call in no handler, so
any error from it propagates; finally run the update loop.
`midMaps` models mapping records other tasks commit between this task's
mapping read and its mapping write (`id` for an interference-free run). -/
def setStatus (now fuel : Nat)
    (midMaps : List MappingRecord → List MappingRecord) (configId : String)
    (credentialId : String) (indexAllocator : Option String)
    (credentialStatus : CredentialStatus) (status : Bool) (σ : St) :
    Except BError Unit × St :=
  let key : MappingKey :=
    { configId := configId
      credentialId := credentialId
      statusPurpose := credentialStatus.statusPurpose }
  -- try to get an existing mapping; allow it to be not found
  let mapping : Option MappingRecord :=
    match Mappings.get key σ with
    | .ok record => some record
    | .error _ => none
  if mapping.isNone && (credentialStatus.statusListCredential.isNone ||
      credentialStatus.statusListIndex.isNone) then
    (.error { message := "\"credentialStatus.statusListCredential\" and " ++
                "\"credentialStatus.statusListIndex\" must be provided " ++
                "because the status has not been set yet."
              name := "DataError" }, σ)
  else if (match mapping, credentialStatus.statusListCredential with
      | some m, some v => decide (v ≠ m.statusListCredential)
      | _, _ => false) = true then
    (.error { message := "\"credentialStatus.statusListCredential\" does " ++
                "not match the expected value."
              name := "DataError" }, σ)
  else if (match mapping, credentialStatus.statusListIndex with
      | some m, some v => decide (m.statusListIndex ≠ v)
      | _, _ => false) = true then
    (.error { message := "\"credentialStatus.statusListIndex\" does not " ++
                "match the expected value."
              name := "DataError" }, σ)
  else
    let statusListCredential :=
      match mapping with
      | some m => m.statusListCredential
      | none => credentialStatus.statusListCredential.getD ""
    let statusListIndex :=
      match mapping with
      | some m => m.statusListIndex
      | none => credentialStatus.statusListIndex.getD ""
    -- compute `statusListId`
    match computeStatusListId configId statusListCredential with
    | .error e => (.error e, σ)
    | .ok statusListId =>
      -- ensure status list VC exists and matches expectation
      match Slcs.get false statusListId σ with
      | (.error e, σ₀) => (.error e, σ₀)
      | (.ok record, σ₀) =>
        match assertStatusListMatch record.credential credentialStatus with
        | .error e => (.error e, σ₀)
        | .ok _ =>
          -- ensure `indexAllocator` value matches if given
          if (match indexAllocator with
              | some ia => decide (record.indexAllocator ≠ ia)
              | none => false) = true then
            (.error { message := "\"indexAllocator\" does not match the " ++
                        "expected value."
                      name := "DataError" }, σ₀)
          else
            match mapping with
            | some _ =>
              let bitstringIndex := parseInt10 statusListIndex
              setStatusLoop now statusListId bitstringIndex status fuel
                record σ₀
            | none =>
              -- `indexAllocator` is required when creating a new mapping
              if indexAllocator.isNone then
                (.error { message := "\"indexAllocator\" is required when " ++
                            "setting the status of a credential the " ++
                            "first time."
                          name := "DataError" }, σ₀)
              else
                -- add new mapping; concurrent first-writers may have
                -- committed since the read above
                let σ₁ := { σ₀ with maps := midMaps σ₀.maps }
                match Mappings.set now key statusListCredential
                    statusListIndex 0 σ₁ with
                | (.error e, σ₂) => (.error e, σ₂)
                | (.ok _, σ₂) =>
                  let bitstringIndex := parseInt10 statusListIndex
                  setStatusLoop now statusListId bitstringIndex status fuel
                    record σ₂

end Status

/-- The `length` property schema inside `createStatusListBody`
(`schemas/bedrock-vc-status.js`): `{type: 'number', min: 8,
max: MAX_LIST_SIZE}`.  Under JSON Schema, `minimum`/`maximum` are the
numeric assertion keywords; `min` and `max` are unknown keywords, which a
validator ignores, so they are carried here as non-asserting
annotations. -/
structure NumberSchema where
  minimum : Option Nat := none
  maximum : Option Nat := none
  minAnnotation : Option Nat := none
  maxAnnotation : Option Nat := none
deriving DecidableEq

/-- JSON Schema validation of a number against the schema: only the
assertion keywords `minimum`/`maximum` constrain the value; the unknown
keywords (`min`/`max` annotations) assert nothing. -/
def NumberSchema.accepts (s : NumberSchema) (n : Nat) : Bool :=
  (match s.minimum with | some lo => decide (lo ≤ n) | none => true) &&
  (match s.maximum with | some hi => decide (n ≤ hi) | none => true)

/-- The `length` schema as written in `schemas/bedrock-vc-status.js`:
`min`/`max` (not `minimum`/`maximum`). -/
def lengthSchema : NumberSchema :=
  { minAnnotation := some 8, maxAnnotation := some MAX_LIST_SIZE }

/-! Concrete data used to instantiate the theorems below. -/

/-- An example status instance base (`config.id`). -/
def exampleConfigId : String := "https://s.example/statuses/1"

/-- An example status list ID under the instance base. -/
def exampleListId : String := "https://s.example/statuses/1/status-lists/a"

/-- An example stored Bitstring status list credential with two clear
bits. -/
def exampleCredential : Credential :=
  { id := exampleListId
    type := ["VerifiableCredential", "BitstringStatusListCredential"]
    statusPurpose := "revocation"
    encodedList := [false, false]
    expirationDate := some 1000 }

/-- The stored record for `exampleCredential` at sequence 0. -/
def exampleRecord : SlcRecord :=
  { statusListId := exampleListId
    indexAllocator := "urn:alloc:1"
    credential := exampleCredential
    meta := { created := 0, updated := 0, sequence := 0 } }

/-- A state holding only `exampleRecord`. -/
def exampleState : St :=
  { slcs := [exampleRecord], maps := [], cache := [], issues := 0 }

/-- The empty state. -/
def emptySt : St := { slcs := [], maps := [], cache := [], issues := 0 }

/-- The mapping key of an example tracked credential. -/
def exampleKey : MappingKey :=
  { configId := exampleConfigId
    credentialId := "urn:vc:1"
    statusPurpose := "revocation" }

/-- The mapping record allocating bit 0 of the example list to the example
credential. -/
def exampleMapping : MappingRecord :=
  { key := exampleKey
    statusListCredential := exampleListId
    statusListIndex := "0"
    meta := { created := 0, updated := 0, sequence := 0 } }

/-- A state holding the example record and its mapping. -/
def exampleStateMapped : St :=
  { slcs := [exampleRecord], maps := [exampleMapping], cache := [], issues := 0 }

/-- A `credentialStatus` naming the example list and index 0 (a first-time
status set). -/
def exampleCredStatusFull : Status.CredentialStatus :=
  { type := "BitstringStatusListEntry"
    statusPurpose := "revocation"
    statusListCredential := some exampleListId
    statusListIndex := some "0" }

/-- Concurrent interference that advances the example record's sequence by
one (a competing writer's committed OCC update). -/
def exampleBump : List SlcRecord → List SlcRecord :=
  fun st => slcReplace st exampleListId (fun r =>
    { r with meta := { r.meta with sequence := r.meta.sequence + 1 } })

/-- The example record after `exampleBump`. -/
def exampleBumpedRecord : SlcRecord :=
  { exampleRecord with
    meta := { exampleRecord.meta with sequence := 1 } }

/-! Helper lemmas. -/

/-- Looking up the key just replaced returns the transformed record, for a
transformation that keeps the natural key. -/
theorem slcReplace_lookup (st : List SlcRecord) (k : String)
    (f : SlcRecord → SlcRecord)
    (hf : ∀ r, (f r).statusListId = r.statusListId) :
    slcLookup (slcReplace st k f) k = (slcLookup st k).map f := by
  induction st with
  | nil => rfl
  | cons a t ih =>
    by_cases h : a.statusListId = k
    · have hfa : (f a).statusListId = k := by rw [hf a, h]
      simp [slcReplace, slcLookup, h, hfa] at *
    · simp only [slcReplace, List.map_cons, if_neg h, slcLookup] at *
      rw [List.find?_cons_of_neg _ (by simp [h]),
        List.find?_cons_of_neg _ (by simp [h])]
      exact ih

/-- Looking up the mapping key just replaced returns the transformed
record, for a transformation that keeps the key. -/
theorem mapReplace_lookup (st : List MappingRecord) (k : MappingKey)
    (f : MappingRecord → MappingRecord)
    (hf : ∀ r, (f r).key = r.key) :
    mapLookup (mapReplace st k f) k = (mapLookup st k).map f := by
  induction st with
  | nil => rfl
  | cons a t ih =>
    by_cases h : a.key = k
    · have hfa : (f a).key = k := by rw [hf a, h]
      simp [mapReplace, mapLookup, h, hfa] at *
    · simp only [mapReplace, List.map_cons, if_neg h, mapLookup] at *
      rw [List.find?_cons_of_neg _ (by simp [h]),
        List.find?_cons_of_neg _ (by simp [h])]
      exact ih

/-- After deleting a cache key, a lookup of that key misses. -/
theorem cacheLookup_delete (c : List (String × SlcRecord)) (k : String) :
    cacheLookup (cacheDelete c k) k = none := by
  unfold cacheLookup cacheDelete
  have : List.find? (fun p => decide (p.1 = k))
      (c.filter (fun p => decide (p.1 ≠ k))) = none := by
    rw [List.find?_eq_none]
    intro x hx
    have := (List.mem_filter.mp hx).2
    simp at this ⊢
    exact this
  rw [this]
  rfl

/-- `_assertStatusListMatch` never raises for any credential and any
supplied (string-valued) `credentialStatus.type`: the `Map` lookup keyed by
status-list-type strings is queried with the credential's `type` array and
therefore yields `undefined`, and the error condition requires the
looked-up value to equal the supplied string. -/
theorem assertStatusListMatch_never_raises (slc : Credential)
    (credentialStatus : Status.CredentialStatus) :
    Status.assertStatusListMatch slc credentialStatus = .ok () := rfl

/-! Claim theorems. -/

/-- C1 counterexample: the claim says `set` accepts a write with sequence
`n` only when the persisted record currently holds `n - 1`, or when no
record exists and `n = 0`.  On a store with no record for the key, a write
with sequence 1 is accepted (the upsert inserts it), so the committed
sequence values for this key begin at 1, not 0. -/
theorem slcSet_accepts_initial_nonzero_sequence :
    (Slcs.set 7 "urn:example:fresh-key" "urn:alloc:9" exampleCredential 1
      emptySt).1 = .ok () ∧
    ((Slcs.set 7 "urn:example:fresh-key" "urn:alloc:9" exampleCredential 1
      emptySt).2).slcs.map (fun r => r.meta.sequence) = [1] :=
  ⟨rfl, rfl⟩

/-- C1 (amended): once a record exists for a key (SLC or mapping), an
accepted OCC write carries sequence exactly one more than the stored
sequence, and afterwards the store holds that sequence — so committed
sequence values on an existing record increase by exactly 1, with no gaps
or repeats.  (When no record exists, `set` accepts any initial sequence;
records created through `create` start at 0, giving `0, 1, 2, …`.) -/
theorem occ_accepted_write_increments_sequence
    (now n nm : Nat) (k ia sc si : String) (c : Credential) (key : MappingKey)
    (σ σ' σ'' : St) (r : SlcRecord) (m : MappingRecord)
    (hr : slcLookup σ.slcs k = some r)
    (hset : Slcs.set now k ia c n σ = (.ok (), σ'))
    (hm : mapLookup σ.maps key = some m)
    (hmset : Mappings.set now key sc si nm σ = (.ok (), σ'')) :
    n = r.meta.sequence + 1 ∧
    (slcLookup σ'.slcs k).map (fun x => x.meta.sequence) = some n ∧
    nm = m.meta.sequence + 1 ∧
    (mapLookup σ''.maps key).map (fun x => x.meta.sequence) = some nm := by
  unfold Slcs.set at hset
  rw [hr] at hset
  unfold Mappings.set at hmset
  rw [hm] at hmset
  dsimp only at hset hmset
  by_cases hc : n ≠ 0 ∧ r.meta.sequence = n - 1
  · by_cases hc2 : nm ≠ 0 ∧ m.meta.sequence = nm - 1
    · rw [if_pos hc] at hset
      rw [if_pos hc2] at hmset
      have hn : n = r.meta.sequence + 1 := by omega
      have hnm : nm = m.meta.sequence + 1 := by omega
      have hσ' : σ' = { σ with
          slcs := slcReplace σ.slcs k (fun x =>
            { x with
              credential := c
              meta := { x.meta with updated := now, sequence := n } })
          cache := cacheDelete σ.cache k } := by
        have := congrArg Prod.snd hset
        simpa using this.symm
      have hσ'' : σ'' = { σ with
          maps := mapReplace σ.maps key (fun x =>
            { x with
              statusListCredential := sc
              statusListIndex := si
              meta := { x.meta with updated := now, sequence := nm } }) } := by
        have := congrArg Prod.snd hmset
        simpa using this.symm
      refine ⟨hn, ?_, hnm, ?_⟩
      · rw [hσ']
        simp only
        rw [slcReplace_lookup]
        · rw [hr]
          rfl
        · intro x
          rfl
      · rw [hσ'']
        simp only
        rw [mapReplace_lookup]
        · rw [hm]
          rfl
        · intro x
          rfl
    · rw [if_neg hc2] at hmset
      exact absurd (congrArg Prod.fst hmset) (by simp [Mappings.staleMappingError])
  · rw [if_neg hc] at hset
    exact absurd (congrArg Prod.fst hset) (by simp [Slcs.staleSlcError])

/-- C1 witness: concrete accepted writes at sequence 1 over a state holding
an SLC record and a mapping record, both at sequence 0. -/
theorem occ_accepted_write_increments_sequence_witness :
    1 = exampleRecord.meta.sequence + 1 ∧
    (slcLookup ((Slcs.set 9 exampleListId "urn:alloc:1" exampleCredential 1
        exampleStateMapped).2).slcs exampleListId).map
      (fun x => x.meta.sequence) = some 1 ∧
    1 = exampleMapping.meta.sequence + 1 ∧
    (mapLookup ((Mappings.set 9 exampleKey exampleListId "0" 1
        exampleStateMapped).2).maps exampleKey).map
      (fun x => x.meta.sequence) = some 1 :=
  occ_accepted_write_increments_sequence 9 1 1 exampleListId "urn:alloc:1"
    exampleListId "0" exampleCredential exampleKey exampleStateMapped
    ((Slcs.set 9 exampleListId "urn:alloc:1" exampleCredential 1
      exampleStateMapped).2)
    ((Mappings.set 9 exampleKey exampleListId "0" 1 exampleStateMapped).2)
    exampleRecord exampleMapping rfl rfl rfl rfl

/-- C6 counterexample: the claim says `set` raises the Conflict exactly
when the OCC precondition (stored sequence = `sequence - 1`, or no record
and `sequence = 0`) fails.  With no record stored and `sequence = 3` the
precondition fails, yet `set` succeeds and inserts the record at
sequence 3. -/
theorem slcSet_no_conflict_on_missing_record_nonzero :
    (Slcs.set 4 "urn:example:other-key" "urn:alloc:7" exampleCredential 3
      emptySt).1 = .ok () ∧
    ((Slcs.set 4 "urn:example:other-key" "urn:alloc:7" exampleCredential 3
      emptySt).2).slcs.map (fun r => r.meta.sequence) = [3] :=
  ⟨rfl, rfl⟩

/-- C6 (amended): `slcs.set` raises its Conflict — always the
`InvalidStateError`, never a generic failure, and with no store change —
exactly when a record exists for the key whose stored sequence is not
`sequence - 1` (equivalently `stored + 1 ≠ sequence`; this includes the
duplicate-key insert case).  Otherwise it succeeds, and on success the
cache entry for the key is invalidated.  When no record exists, `set`
succeeds for every sequence. -/
theorem slcSet_conflict_characterization (now n : Nat) (k ia : String)
    (c : Credential) (σ : St) :
    (match Slcs.set now k ia c n σ with
     | (.error e, σ₁) =>
       e = Slcs.staleSlcError ∧ σ₁ = σ ∧
       ∃ r, slcLookup σ.slcs k = some r ∧ r.meta.sequence + 1 ≠ n
     | (.ok _, σ₁) =>
       (∀ r, slcLookup σ.slcs k = some r → r.meta.sequence + 1 = n) ∧
       cacheLookup σ₁.cache k = none) := by
  unfold Slcs.set
  cases hr : slcLookup σ.slcs k with
  | none =>
    dsimp only
    refine ⟨?_, ?_⟩
    · intro r hcontra
      simp at hcontra
    · exact cacheLookup_delete σ.cache k
  | some r =>
    dsimp only
    by_cases hc : n ≠ 0 ∧ r.meta.sequence = n - 1
    · rw [if_pos hc]
      refine ⟨?_, ?_⟩
      · intro x hx
        have hrx : r = x := Option.some.inj hx
        subst hrx
        omega
      · exact cacheLookup_delete σ.cache k
    · rw [if_neg hc]
      refine ⟨rfl, rfl, r, rfl, ?_⟩
      omega

/-- C2 (confirmed): when a mapping already exists for
`(configId, credentialId, statusPurpose)` and the decoded bit at the mapped
index already equals the requested boolean, `setStatus` returns success
and the entire state — SLC store, mapping store, cache, and the Issuer
invocation counter — is exactly the initial state: no store write, no
re-issuance, and the record's sequence (and entire content) unchanged. -/
theorem setStatus_idempotent_noop (now fuel : Nat)
    (configId credentialId t sp sid : String) (σ : St)
    (m : MappingRecord) (r : SlcRecord) (status : Bool)
    (hm : mapLookup σ.maps
      { configId := configId, credentialId := credentialId,
        statusPurpose := sp } = some m)
    (hcomp : Status.computeStatusListId configId m.statusListCredential =
      .ok sid)
    (hr : slcLookup σ.slcs sid = some r)
    (hbit : Status.getStatusBit r.credential.encodedList
      (Status.parseInt10 m.statusListIndex) = status) :
    Status.setStatus now (fuel + 1) id configId credentialId none
      { type := t, statusPurpose := sp } status σ = (.ok (), σ) := by
  unfold Status.setStatus
  simp only [Mappings.get, hm]
  simp only [Option.isNone_none, Option.isNone_some, Bool.false_and,
    Bool.or_self, Bool.and_false, Bool.false_eq_true, if_false]
  simp only [hcomp]
  simp only [Slcs.get, hr]
  simp only [assertStatusListMatch_never_raises]
  simp [Status.setStatusLoop, hbit]

/-- C2 witness: a concrete repeat `setStatus` call (mapping present, bit 0
already `false`) returns successfully with the state unchanged. -/
theorem setStatus_idempotent_noop_witness :
    Status.setStatus 5 1 id exampleConfigId "urn:vc:1" none
      { type := "BitstringStatusListEntry", statusPurpose := "revocation" }
      false exampleStateMapped = (.ok (), exampleStateMapped) :=
  setStatus_idempotent_noop 5 0 exampleConfigId "urn:vc:1"
    "BitstringStatusListEntry" "revocation" exampleListId exampleStateMapped
    exampleMapping exampleRecord false rfl rfl rfl rfl

/-- C3 (code bug): the claim — and the intent recorded in the spec and
exercised by the tests — is that a supplied `credentialStatus.type`
differing from the entry type implied by the SLC's type raises a client
`DataError`.  The check as coded cannot raise on any mismatch: it looks
the SLC's `type` array up in a string-keyed `Map` (yielding `undefined`)
and then throws only on equality.  Here a `StatusList2021Entry` is
accepted against a `BitstringStatusListCredential`. -/
theorem assertStatusListMatch_mismatch_passes :
    Status.assertStatusListMatch exampleCredential
      { type := "StatusList2021Entry", statusPurpose := "revocation" } =
      .ok () := rfl

/-- C4 (code bug): a first-time `setStatus` call that loses the race to
create its mapping — modelled by the winner's mapping record landing
between this call's mapping read and its mapping write — receives the
Mapping Store's stale-sequence `InvalidStateError` from `mappings.set`,
and `setStatus` propagates it to its external caller: the call to
`mappings.set` is wrapped in no handler.  The claim says the conflict is
caught and treated as "mapping already exists, proceed". -/
theorem setStatus_mapping_conflict_propagates :
    (Status.setStatus 5 3 (fun maps => exampleMapping :: maps)
      exampleConfigId "urn:vc:1" (some "urn:alloc:1") exampleCredStatusFull
      true exampleState).1 = .error Mappings.staleMappingError ∧
    ((Status.setStatus 5 3 (fun maps => exampleMapping :: maps)
      exampleConfigId "urn:vc:1" (some "urn:alloc:1") exampleCredStatusFull
      true exampleState).2).slcs = exampleState.slcs ∧
    ((Status.setStatus 5 3 (fun maps => exampleMapping :: maps)
      exampleConfigId "urn:vc:1" (some "urn:alloc:1") exampleCredStatusFull
      true exampleState).2).maps = [exampleMapping] :=
  ⟨rfl, rfl, rfl⟩

/-- C5 (code bug): on an expired record (`expirationDate` 1000, now 10^6),
`getFresh` does trigger `refresh` — the stored record is re-signed and its
sequence advances to 1 — but the value returned to the caller is
`{credential: undefined}`: the expired branch returns `doc.content`, while
`refresh` resolves to `{credential}`, which has no `content` property.
The claim says the refreshed, re-signed credential document is returned. -/
theorem getFresh_expired_returns_undefined_credential :
    (Slcs.getFresh 1000000 id exampleListId exampleState).1 =
      .ok { credential := none } ∧
    ((slcLookup ((Slcs.getFresh 1000000 id exampleListId
        exampleState).2).slcs exampleListId).map
      (fun r => r.meta.sequence)) = some 1 :=
  ⟨rfl, rfl⟩

/-- An uncached read returns the stored record and leaves the state
unchanged. -/
theorem slcGet_uncached_some (k : String) (σ : St) (r : SlcRecord)
    (h : slcLookup σ.slcs k = some r) :
    Slcs.get false k σ = (.ok r, σ) := by
  unfold Slcs.get
  rw [h]
  rfl

/-- A cached read with an empty cache entry loads the stored record and
memoizes it. -/
theorem slcGet_cached_miss (k : String) (σ : St) (r : SlcRecord)
    (hc : cacheLookup σ.cache k = none)
    (h : slcLookup σ.slcs k = some r) :
    Slcs.get true k σ = (.ok r, { σ with cache := (k, r) :: σ.cache }) := by
  unfold Slcs.get
  rw [hc, h]
  rfl

/-- C7 (confirmed): with a record `r` stored for the key and `r'` the
record present when the OCC write lands (`mid` being the interleaved
writes of other tasks), a refresh that wins (stored sequence unchanged,
`r'.meta.sequence = r.meta.sequence`) stores the re-issued document: every
decoded bit, the id and the status purpose are unchanged, and only the
validity window, the proof and the record's sequence (now one higher)
change.  A refresh that loses (sequence moved) does not retry: it keeps
its write out of the store (`σ'.slcs = mid σ.slcs`), re-reads after
invalidating the cache, and returns the now-current record's credential. -/
theorem refresh_preserves_bits_and_conflict_reread (now : Nat) (k : String)
    (σ : St) (r r' : SlcRecord) (mid : List SlcRecord → List SlcRecord)
    (hr : slcLookup σ.slcs k = some r)
    (hm : slcLookup (mid σ.slcs) k = some r') :
    (r'.meta.sequence = r.meta.sequence →
      ∃ σ', Slcs.refresh now mid k σ =
          (.ok { credential := issue now r.credential }, σ') ∧
        (issue now r.credential).encodedList = r.credential.encodedList ∧
        (issue now r.credential).id = r.credential.id ∧
        (issue now r.credential).statusPurpose = r.credential.statusPurpose ∧
        (∀ i, Status.getStatusBit (issue now r.credential).encodedList
          (some i) = Status.getStatusBit r.credential.encodedList (some i)) ∧
        (slcLookup σ'.slcs k).map (fun x => x.credential.encodedList) =
          some r.credential.encodedList ∧
        (slcLookup σ'.slcs k).map (fun x => x.meta.sequence) =
          some (r.meta.sequence + 1)) ∧
    (r'.meta.sequence ≠ r.meta.sequence →
      ∃ σ', Slcs.refresh now mid k σ =
          (.ok { credential := r'.credential }, σ') ∧
        σ'.slcs = mid σ.slcs ∧
        σ'.issues = σ.issues + 1 ∧
        cacheLookup σ'.cache k = some r') := by
  constructor
  · intro hseq
    have hEq : Slcs.refresh now mid k σ =
        (.ok { credential := issue now r.credential },
         { slcs := slcReplace (mid σ.slcs) k (fun x =>
             { x with
               credential := issue now r.credential
               meta := { x.meta with
                         updated := now, sequence := r.meta.sequence + 1 } })
           maps := σ.maps
           cache := cacheDelete σ.cache k
           issues := σ.issues + 1 }) := by
      unfold Slcs.refresh
      rw [slcGet_uncached_some k σ r hr]
      dsimp only
      unfold Slcs.set
      dsimp only
      rw [hm]
      dsimp only
      rw [if_pos ⟨Nat.succ_ne_zero _, by omega⟩]
    refine ⟨_, hEq, rfl, rfl, rfl, fun i => rfl, ?_, ?_⟩
    · simp only
      rw [slcReplace_lookup]
      · rw [hm]
        rfl
      · intro x
        rfl
    · simp only
      rw [slcReplace_lookup]
      · rw [hm]
        rfl
      · intro x
        rfl
  · intro hseq
    have hEq : Slcs.refresh now mid k σ =
        (.ok { credential := r'.credential },
         { slcs := mid σ.slcs
           maps := σ.maps
           cache := (k, r') :: cacheDelete σ.cache k
           issues := σ.issues + 1 }) := by
      unfold Slcs.refresh
      rw [slcGet_uncached_some k σ r hr]
      dsimp only
      unfold Slcs.set
      dsimp only
      rw [hm]
      dsimp only
      rw [if_neg (by omega)]
      dsimp only
      rw [if_pos (by rfl)]
      rw [slcGet_cached_miss k _ r' (by dsimp only; exact cacheLookup_delete _ _)
        (by dsimp only; exact hm)]
    refine ⟨_, hEq, rfl, rfl, ?_⟩
    simp [cacheLookup]

/-- C7 witness: a concrete interference-free refresh of the example record
(bits and identity preserved, sequence 0 → 1), and a concrete lost-race
refresh (a competing writer bumped the sequence) that returns the
now-current record without retrying. -/
theorem refresh_preserves_bits_and_conflict_reread_witness :
    (∃ σ', Slcs.refresh 999 id exampleListId exampleState =
        (.ok { credential := issue 999 exampleRecord.credential }, σ') ∧
      (issue 999 exampleRecord.credential).encodedList =
        exampleRecord.credential.encodedList ∧
      (issue 999 exampleRecord.credential).id =
        exampleRecord.credential.id ∧
      (issue 999 exampleRecord.credential).statusPurpose =
        exampleRecord.credential.statusPurpose ∧
      (∀ i, Status.getStatusBit (issue 999 exampleRecord.credential).encodedList
          (some i) =
        Status.getStatusBit exampleRecord.credential.encodedList (some i)) ∧
      (slcLookup σ'.slcs exampleListId).map
        (fun x => x.credential.encodedList) =
          some exampleRecord.credential.encodedList ∧
      (slcLookup σ'.slcs exampleListId).map (fun x => x.meta.sequence) =
        some (exampleRecord.meta.sequence + 1)) ∧
    (∃ σ', Slcs.refresh 999 exampleBump exampleListId exampleState =
        (.ok { credential := exampleBumpedRecord.credential }, σ') ∧
      σ'.slcs = exampleBump exampleState.slcs ∧
      σ'.issues = exampleState.issues + 1 ∧
      cacheLookup σ'.cache exampleListId = some exampleBumpedRecord) :=
  ⟨(refresh_preserves_bits_and_conflict_reread 999 exampleListId exampleState
      exampleRecord exampleRecord id rfl rfl).1 rfl,
   (refresh_preserves_bits_and_conflict_reread 999 exampleListId exampleState
      exampleRecord exampleBumpedRecord exampleBump rfl rfl).2 (by decide)⟩

/-- C8 (confirmed): for a supported list type, `create` fails with the
`DataError` whose message names the expected suffix (the part of
`statusListId` after the instance base `configId`) exactly when
`credentialId` does not end in that suffix; every `credentialId` ending in
the suffix — whatever its host or prefix — passes the validation, and on a
fresh key `create` proceeds to store a credential with that id. -/
theorem create_suffix_validation (now length : Nat)
    (configId statusListId indexAllocator credentialId listType
      statusPurpose : String) (σ : St)
    (htype : jsMapHas LIST_TYPE_TO_ENTRY_TYPE (.str listType) = true) :
    (∃ a b, (Slcs.suffixMismatchError
      (jsSlice statusListId configId.length)).message =
        a ++ jsSlice statusListId configId.length ++ b) ∧
    (jsEndsWith credentialId (jsSlice statusListId configId.length) = false →
      Slcs.create now configId statusListId indexAllocator credentialId
        listType statusPurpose length σ =
        (.error (Slcs.suffixMismatchError
          (jsSlice statusListId configId.length)), σ)) ∧
    (jsEndsWith credentialId (jsSlice statusListId configId.length) = true →
      slcLookup σ.slcs statusListId = none →
      ∃ res σ', Slcs.create now configId statusListId indexAllocator
          credentialId listType statusPurpose length σ = (.ok res, σ') ∧
        res.credential.id = credentialId) := by
  refine ⟨⟨"Credential ID must end in status list suffix (\"", "\").",
    rfl⟩, ?_, ?_⟩
  · intro hends
    simp [Slcs.create, htype, hends]
  · intro hends hfresh
    simp only [Slcs.create, htype, hends, not_true_eq_false, if_false,
      Bool.true_eq_false]
    unfold Slcs.set
    rw [hfresh]
    exact ⟨_, _, rfl, rfl⟩

/-- C8 witness: with suffix `/status-lists/a`,
`https://x/not-allowed/a` is rejected with the `DataError` naming the
suffix, while `https://other.example/z/status-lists/a` (a different host
and prefix) passes and is stored. -/
theorem create_suffix_validation_witness :
    Slcs.create 3 exampleConfigId exampleListId "urn:alloc:1"
      "https://x/not-allowed/a" "BitstringStatusList" "revocation" 8
      emptySt =
      (.error (Slcs.suffixMismatchError
        (jsSlice exampleListId exampleConfigId.length)), emptySt) ∧
    (∃ res σ', Slcs.create 3 exampleConfigId exampleListId "urn:alloc:1"
        "https://other.example/z/status-lists/a" "BitstringStatusList"
        "revocation" 8 emptySt = (.ok res, σ') ∧
      res.credential.id = "https://other.example/z/status-lists/a") :=
  ⟨(create_suffix_validation 3 8 exampleConfigId exampleListId "urn:alloc:1"
      "https://x/not-allowed/a" "BitstringStatusList" "revocation" emptySt
      rfl).2.1 rfl,
   (create_suffix_validation 3 8 exampleConfigId exampleListId "urn:alloc:1"
      "https://other.example/z/status-lists/a" "BitstringStatusList"
      "revocation" emptySt rfl).2.2 rfl rfl⟩

/-- C9 (code bug): the claim — matching the intent documented with
`MAX_LIST_SIZE` in `lib/constants.js` — is that creation is rejected for
every `length` above the configured maximum (2^26 bits).  But the schema
spells the bound with the unknown keywords `min`/`max` instead of the
JSON Schema assertions `minimum`/`maximum`, so validation accepts any
number, and `create` itself never checks `length`: an over-sized list is
accepted and an all-false bitstring of that length is built and stored. -/
theorem length_bound_not_enforced (now length : Nat) (σ : St)
    (hfresh : slcLookup σ.slcs exampleListId = none)
    (hbig : MAX_LIST_SIZE < length) :
    lengthSchema.accepts length = true ∧
    (∃ res σ', Slcs.create now exampleConfigId exampleListId "urn:alloc:1"
        exampleListId "BitstringStatusList" "revocation" length σ =
        (.ok res, σ') ∧
      res.credential.encodedList = List.replicate length false) := by
  constructor
  · rfl
  · simp only [Slcs.create,
      show jsMapHas LIST_TYPE_TO_ENTRY_TYPE (.str "BitstringStatusList") =
        true from rfl,
      show jsEndsWith exampleListId
        (jsSlice exampleListId exampleConfigId.length) = true from rfl,
      not_true_eq_false, if_false, Bool.true_eq_false]
    unfold Slcs.set
    rw [hfresh]
    exact ⟨_, _, rfl, rfl⟩

/-- C9 witness: the schema accepts `MAX_LIST_SIZE + 1` and creation of a
list of `MAX_LIST_SIZE + 1` bits succeeds. -/
theorem length_bound_not_enforced_witness :
    lengthSchema.accepts (MAX_LIST_SIZE + 1) = true ∧
    (∃ res σ', Slcs.create 0 exampleConfigId exampleListId "urn:alloc:1"
        exampleListId "BitstringStatusList" "revocation" (MAX_LIST_SIZE + 1)
        emptySt = (.ok res, σ') ∧
      res.credential.encodedList =
        List.replicate (MAX_LIST_SIZE + 1) false) :=
  length_bound_not_enforced 0 (MAX_LIST_SIZE + 1) emptySt rfl
    (Nat.lt_succ_self _)

/-- C10 (confirmed): calling `create` for a status list whose record
already exists never overwrites it: the stored record carries a numeric
sequence, so the `sequence = 0` OCC filter (`meta.sequence: null`) matches
nothing, the attempted upsert-insert violates the unique `statusListId`
index, and `create` raises the Conflict (`InvalidStateError`); the
previously stored record — credential, bit contents and `indexAllocator` —
is unchanged. -/
theorem create_existing_record_conflict (now length : Nat) (σ : St)
    (r : SlcRecord) (hr : slcLookup σ.slcs exampleListId = some r) :
    (Slcs.create now exampleConfigId exampleListId "urn:alloc:2"
      exampleListId "BitstringStatusList" "revocation" length σ).1 =
      .error Slcs.staleSlcError ∧
    ((Slcs.create now exampleConfigId exampleListId "urn:alloc:2"
      exampleListId "BitstringStatusList" "revocation" length σ).2).slcs =
      σ.slcs ∧
    ((Slcs.create now exampleConfigId exampleListId "urn:alloc:2"
      exampleListId "BitstringStatusList" "revocation" length σ).2).maps =
      σ.maps ∧
    slcLookup ((Slcs.create now exampleConfigId exampleListId "urn:alloc:2"
      exampleListId "BitstringStatusList" "revocation" length σ).2).slcs
      exampleListId = some r := by
  have hstep : Slcs.create now exampleConfigId exampleListId "urn:alloc:2"
      exampleListId "BitstringStatusList" "revocation" length σ =
      (.error Slcs.staleSlcError, { σ with issues := σ.issues + 1 }) := by
    simp only [Slcs.create,
      show jsMapHas LIST_TYPE_TO_ENTRY_TYPE (.str "BitstringStatusList") =
        true from rfl,
      show jsEndsWith exampleListId
        (jsSlice exampleListId exampleConfigId.length) = true from rfl,
      not_true_eq_false, if_false, Bool.true_eq_false]
    unfold Slcs.set
    rw [hr]
    dsimp only
    rw [if_neg (by simp)]
  rw [hstep]
  exact ⟨rfl, rfl, rfl, hr⟩

/-- C10 witness: re-creating the example list over its existing record
raises the Conflict and leaves the stored record intact. -/
theorem create_existing_record_conflict_witness :
    (Slcs.create 6 exampleConfigId exampleListId "urn:alloc:2"
      exampleListId "BitstringStatusList" "revocation" 8 exampleState).1 =
      .error Slcs.staleSlcError ∧
    ((Slcs.create 6 exampleConfigId exampleListId "urn:alloc:2"
      exampleListId "BitstringStatusList" "revocation" 8
      exampleState).2).slcs = exampleState.slcs ∧
    ((Slcs.create 6 exampleConfigId exampleListId "urn:alloc:2"
      exampleListId "BitstringStatusList" "revocation" 8
      exampleState).2).maps = exampleState.maps ∧
    slcLookup ((Slcs.create 6 exampleConfigId exampleListId "urn:alloc:2"
      exampleListId "BitstringStatusList" "revocation" 8
      exampleState).2).slcs exampleListId = some exampleRecord :=
  create_existing_record_conflict 6 8 exampleState exampleRecord rfl
